import Mathlib

/-!
Shallow embedding of `src/backend/src/routes/simulations.rs` from the
physics-tutorial repository, together with proofs of the specification
claims about it.

The Rust file exposes three route handlers —
`list_simulations`, `get_simulation`, `run_simulation` — and one numeric
kernel `calculate_interference_pattern`.  The handlers are pure apart from
UUID/timestamp generation; we model those two impure values as explicit
`String` inputs of `run_simulation`.  `f64` arithmetic is modelled over `ℝ`;
`serde_json::Value` is modelled by the inductive `JsonValue`, and
`serde_json::Map` by an association list.  HTTP failure is modelled by
`Except StatusCode`.
-/

open Real

/-- Model of the only HTTP status the handlers return on failure. -/
inductive StatusCode where
  | NOT_FOUND : StatusCode
deriving DecidableEq

/-- Model of `serde_json::Value`: an untyped JSON value (numbers as `ℝ`,
mirroring `f64`). -/
inductive JsonValue where
  | null : JsonValue
  | bool : Bool → JsonValue
  | num : ℝ → JsonValue
  | str : String → JsonValue
  | arr : List JsonValue → JsonValue
  | obj : List (String × JsonValue) → JsonValue

/-- Model of `serde_json::Value::as_f64`: `some` exactly on numbers. -/
def JsonValue.as_f64 : JsonValue → Option ℝ
  | .num x => some x
  | _ => none

/-- Model of `serde_json::Value::as_bool`: `some` exactly on booleans. -/
def JsonValue.as_bool : JsonValue → Option Bool
  | .bool b => some b
  | _ => none

/-- Model of `serde_json::Map<String, Value>`: an association list with
key lookup (`Map::get`). -/
def JsonMap : Type := List (String × JsonValue)

/-- Model of `serde_json::Map::get`. -/
def JsonMap.get (m : JsonMap) (k : String) : Option JsonValue :=
  List.lookup k m

/-- Rust struct `SimulationInfo` (catalog entry). -/
structure SimulationInfo where
  id : String
  name : String
  description : String
  difficulty : String
  estimated_time_minutes : Nat
  topics : List String

/-- Rust struct `SimulationParameter` (one schema entry; `f64` fields as `ℝ`). -/
structure SimulationParameter where
  name : String
  label : String
  param_type : String
  min : Option ℝ
  max : Option ℝ
  default : ℝ
  step : Option ℝ

/-- Rust struct `SimulationDetails`. -/
structure SimulationDetails where
  id : String
  name : String
  description : String
  parameters : List SimulationParameter
  theory : String

/-- Rust struct `RunSimulationRequest`. -/
structure RunSimulationRequest where
  parameters : JsonMap

/-- Rust struct `SimulationResult`; `data` is the untyped JSON payload built
by the `json!` macro. -/
structure SimulationResult where
  id : String
  simulation_id : String
  data : JsonValue
  computed_at : String

/-- Embedding of `list_simulations`: the fixed catalog the handler returns. -/
def list_simulations : List SimulationInfo :=
  [ { id := "double-slit"
      name := "Double-Slit Experiment"
      description := "Explore wave-particle duality through the classic quantum experiment"
      difficulty := "beginner"
      estimated_time_minutes := 15
      topics := ["wave-particle duality", "interference", "quantum measurement"] },
    { id := "quantum-tunneling"
      name := "Quantum Tunneling"
      description := "Visualize how particles can pass through potential barriers"
      difficulty := "intermediate"
      estimated_time_minutes := 20
      topics := ["tunneling", "potential barriers", "probability"] },
    { id := "hydrogen-atom"
      name := "Hydrogen Atom Orbitals"
      description := "Interactive 3D visualization of electron orbitals"
      difficulty := "intermediate"
      estimated_time_minutes := 25
      topics := ["orbitals", "energy levels", "spectral lines"] } ]

/-- The raw theory markdown embedded in `get_simulation` (braces written as
`\x7b`/`\x7d` and the apostrophe as `\x27`). -/
def doubleSlitTheory : String :=
  "\n## Wave-Particle Duality\n\nWhen particles like electrons or photons pass through two slits, they create an interference pattern on a detection screen - a behavior characteristic of waves.\n\n"
  ++ "However, when we try to observe which slit the particle passes through, the interference pattern disappears, and we see two bands - particle behavior.\n\n"
  ++ "### Key Concepts:\n1. **Superposition**: The particle exists in a superposition of passing through both slits\n2. **Wave function**: Describes the probability amplitude of the particle\x27s position\n3. **Measurement**: Observing the particle collapses the wave function\n\n"
  ++ "### Mathematical Description:\nThe intensity pattern is given by:\n$$I(θ) = I_0 \\cos^2\\left(\\frac\x7bπd\\sin(θ)\x7d\x7bλ\x7d\\right)$$\n\n"
  ++ "Where:\n- $d$ is the slit separation\n- $λ$ is the wavelength\n- $θ$ is the angle from the center\n"

/-- Embedding of `get_simulation`: details for `"double-slit"`, otherwise
`NOT_FOUND`. -/
noncomputable def get_simulation (id : String) : Except StatusCode SimulationDetails :=
  if id = "double-slit" then
    Except.ok
      { id := "double-slit"
        name := "Double-Slit Experiment"
        description := "The double-slit experiment demonstrates the fundamentally probabilistic nature of quantum mechanical phenomena."
        parameters :=
          [ { name := "wavelength"
              label := "Wavelength (nm)"
              param_type := "slider"
              min := some 400.0
              max := some 700.0
              default := 550.0
              step := some 10.0 },
            { name := "slit_separation"
              label := "Slit Separation (mm)"
              param_type := "slider"
              min := some 0.01
              max := some 1.0
              default := 0.1
              step := some 0.01 },
            { name := "observer_mode"
              label := "Observer Mode"
              param_type := "toggle"
              min := none
              max := none
              default := 0.0
              step := none } ]
        theory := doubleSlitTheory }
  else
    Except.error StatusCode.NOT_FOUND

/-- The body of the closure mapped over `0..num_points` in
`calculate_interference_pattern`, at sample index `i`. -/
noncomputable def intensity_at (wavelength_nm slit_separation_mm : ℝ)
    (observer_mode : Bool) (i : ℕ) : ℝ :=
  let wavelength_m := wavelength_nm * 1e-9
  let slit_separation_m := slit_separation_mm * 1e-3
  let screen_distance : ℝ := 1.0
  let x := ((i : ℝ) - 200 / 2) * 0.001
  let theta := Real.arctan (x / screen_distance)
  if observer_mode then
    let band1 := Real.exp (-((theta + 0.05) ^ 2) / 0.001)
    let band2 := Real.exp (-((theta - 0.05) ^ 2) / 0.001)
    (band1 + band2) * 0.5
  else
    let phase := Real.pi * slit_separation_m * Real.sin theta / wavelength_m
    Real.cos phase ^ 2

/-- Embedding of `calculate_interference_pattern`: 200 samples in index
order. -/
noncomputable def calculate_interference_pattern (wavelength_nm slit_separation_mm : ℝ)
    (observer_mode : Bool) : List ℝ :=
  (List.range 200).map (intensity_at wavelength_nm slit_separation_mm observer_mode)

/-- Embedding of `run_simulation`.  The generated UUID and RFC-3339 timestamp
are impure in the Rust handler; they enter here as the explicit arguments
`uuid` and `now`. -/
noncomputable def run_simulation (uuid now : String) (id : String)
    (params : RunSimulationRequest) : Except StatusCode SimulationResult :=
  if id = "double-slit" then
    let wavelength := ((params.parameters.get "wavelength").bind JsonValue.as_f64).getD 550.0
    let slit_separation := ((params.parameters.get "slit_separation").bind JsonValue.as_f64).getD 0.1
    let observer_mode := ((params.parameters.get "observer_mode").bind JsonValue.as_bool).getD false
    let pattern := calculate_interference_pattern wavelength slit_separation observer_mode
    Except.ok
      { id := uuid
        simulation_id := id
        data := JsonValue.obj
          [ ("pattern", JsonValue.arr (pattern.map JsonValue.num)),
            ("wavelength", JsonValue.num wavelength),
            ("slit_separation", JsonValue.num slit_separation),
            ("observer_mode", JsonValue.bool observer_mode) ]
        computed_at := now }
  else
    Except.error StatusCode.NOT_FOUND

/-- Spec-side resolver for a `slider` (continuous-numeric) parameter,
written from the spec: if the key is present in the raw map with a numeric
value, use it; otherwise substitute the schema default. -/
def resolve_slider_spec (m : JsonMap) (key : String) (default : ℝ) : ℝ :=
  match m.get key with
  | some (JsonValue.num x) => x
  | _ => default

/-- Spec-side resolver for a `toggle` (boolean) parameter, written from the
spec: if the key is present in the raw map with a boolean value, use it;
otherwise substitute the schema default. -/
def resolve_toggle_spec (m : JsonMap) (key : String) (default : Bool) : Bool :=
  match m.get key with
  | some (JsonValue.bool b) => b
  | _ => default

/-- C8: `list_simulations` is a fixed catalog whose ids are exactly
`"double-slit"`, `"quantum-tunneling"`, `"hydrogen-atom"`, in insertion
order and without duplicates (hence each supported id occurs exactly
once); being a constant, it is identical on every invocation. -/
theorem list_simulations_catalog :
    list_simulations.map SimulationInfo.id =
      ["double-slit", "quantum-tunneling", "hydrogen-atom"] ∧
    (list_simulations.map SimulationInfo.id).Nodup := by
  constructor
  · rfl
  · decide

/-- C1 counterexample: `"quantum-tunneling"` is in the catalog returned by
`list_simulations`, yet both `get_simulation` and `run_simulation` answer
`NOT_FOUND` for it — so it is false that every catalog id succeeds. -/
theorem catalog_id_not_served :
    "quantum-tunneling" ∈ list_simulations.map SimulationInfo.id ∧
    get_simulation "quantum-tunneling" = Except.error StatusCode.NOT_FOUND ∧
    run_simulation "u" "t" "quantum-tunneling" ⟨[]⟩ =
      Except.error StatusCode.NOT_FOUND := by
  refine ⟨by decide, ?_, ?_⟩
  · rw [get_simulation]
    simp
  · rw [run_simulation]
    simp

/-- C1 amended: `get_simulation id` and `run_simulation uuid now id params`
succeed exactly when `id = "double-slit"`; every other id — including the
catalog ids `"quantum-tunneling"` and `"hydrogen-atom"` — yields
`NOT_FOUND`. -/
theorem lookup_and_run_notfound_iff (uuid now id : String)
    (params : RunSimulationRequest) :
    ((∃ d, get_simulation id = Except.ok d) ↔ id = "double-slit") ∧
    ((∃ r, run_simulation uuid now id params = Except.ok r) ↔ id = "double-slit") ∧
    (id ≠ "double-slit" →
      get_simulation id = Except.error StatusCode.NOT_FOUND ∧
      run_simulation uuid now id params = Except.error StatusCode.NOT_FOUND) := by
  by_cases h : id = "double-slit" <;>
    simp [get_simulation, run_simulation, h]

/-- C10: with `observer_mode = true` the kernel ignores both the wavelength
and the slit separation: any two parameter pairs give the identical output
sequence. -/
theorem observer_pattern_independent_of_params (w₁ d₁ w₂ d₂ : ℝ) :
    calculate_interference_pattern w₁ d₁ true =
    calculate_interference_pattern w₂ d₂ true := by
  unfold calculate_interference_pattern
  refine List.map_congr_left fun i _ => ?_
  simp [intensity_at]

/-- C5: the computation is deterministic — for the same id and parameter
map, two `run_simulation` calls (differing only in the impure UUID and
timestamp inputs) produce the same `data` payload, and the kernel itself is
a pure function of its three arguments. -/
theorem run_simulation_deterministic (uuid₁ now₁ uuid₂ now₂ id : String)
    (params : RunSimulationRequest) (w d : ℝ) (o : Bool) :
    (run_simulation uuid₁ now₁ id params).map SimulationResult.data =
      (run_simulation uuid₂ now₂ id params).map SimulationResult.data ∧
    calculate_interference_pattern w d o = calculate_interference_pattern w d o := by
  refine ⟨?_, rfl⟩
  by_cases h : id = "double-slit" <;>
    simp [run_simulation, h, Except.map]

/-- The code's `unwrap_or` chain for a slider parameter agrees with the
spec-side per-entry resolver. -/
lemma getD_as_f64_eq_resolve (m : JsonMap) (k : String) (dflt : ℝ) :
    resolve_slider_spec m k dflt = ((m.get k).bind JsonValue.as_f64).getD dflt := by
  unfold resolve_slider_spec
  cases h : m.get k with
  | none => rfl
  | some v => cases v <;> rfl

/-- The code's `unwrap_or` chain for a toggle parameter agrees with the
spec-side per-entry resolver. -/
lemma getD_as_bool_eq_resolve (m : JsonMap) (k : String) (dflt : Bool) :
    resolve_toggle_spec m k dflt = ((m.get k).bind JsonValue.as_bool).getD dflt := by
  unfold resolve_toggle_spec
  cases h : m.get k with
  | none => rfl
  | some v => cases v <;> rfl


/-- C4: parameter resolution is per-entry silent fallback and never fails:
for every raw map (missing keys, wrong-typed values, extra keys, in any
mixture), `run_simulation "double-slit"` succeeds and its payload is
computed from, and echoes, the per-entry resolution of the map — each entry
independently uses the supplied value when present and type-compatible and
the schema default (`wavelength = 550.0`, `slit_separation = 0.1`,
`observer_mode = false`) otherwise; in particular the empty map yields the
same payload as the map spelling out the three defaults. -/
theorem run_silent_fallback (uuid now : String) (m : RunSimulationRequest) :
    (∃ r, run_simulation uuid now "double-slit" m = Except.ok r ∧
       r.data = JsonValue.obj
         [ ("pattern", JsonValue.arr ((calculate_interference_pattern
               (resolve_slider_spec m.parameters "wavelength" 550.0)
               (resolve_slider_spec m.parameters "slit_separation" 0.1)
               (resolve_toggle_spec m.parameters "observer_mode" false)).map JsonValue.num)),
           ("wavelength", JsonValue.num (resolve_slider_spec m.parameters "wavelength" 550.0)),
           ("slit_separation", JsonValue.num (resolve_slider_spec m.parameters "slit_separation" 0.1)),
           ("observer_mode", JsonValue.bool (resolve_toggle_spec m.parameters "observer_mode" false)) ]) ∧
    (run_simulation uuid now "double-slit" ⟨[]⟩).map SimulationResult.data =
      (run_simulation uuid now "double-slit"
        ⟨[("wavelength", JsonValue.num 550.0),
          ("slit_separation", JsonValue.num 0.1),
          ("observer_mode", JsonValue.bool false)]⟩).map SimulationResult.data := by
  constructor
  · refine ⟨_, rfl, ?_⟩
    rw [show ∀ k, resolve_slider_spec m.parameters k 550.0 =
          ((m.parameters.get k).bind JsonValue.as_f64).getD 550.0 from
        fun k => getD_as_f64_eq_resolve m.parameters k 550.0,
      show ∀ k, resolve_slider_spec m.parameters k 0.1 =
          ((m.parameters.get k).bind JsonValue.as_f64).getD 0.1 from
        fun k => getD_as_f64_eq_resolve m.parameters k 0.1,
      getD_as_bool_eq_resolve m.parameters "observer_mode" false]
  · rfl

/-- Witness for C4 at `uuid = "u"`, `now = "t"` and the mixed map
`[("wavelength", 500)]`: the supplied wavelength is used while the missing
slit separation and observer mode fall back to their defaults. -/
theorem run_silent_fallback_witness :
    ∃ r, run_simulation "u" "t" "double-slit"
        ⟨[("wavelength", JsonValue.num 500)]⟩ = Except.ok r ∧
      r.data = JsonValue.obj
        [ ("pattern", JsonValue.arr
            ((calculate_interference_pattern 500 0.1 false).map JsonValue.num)),
          ("wavelength", JsonValue.num 500),
          ("slit_separation", JsonValue.num 0.1),
          ("observer_mode", JsonValue.bool false) ] := by
  obtain ⟨r, hr, hd⟩ :=
    (run_silent_fallback "u" "t" ⟨[("wavelength", JsonValue.num 500)]⟩).1
  refine ⟨r, hr, ?_⟩
  rw [hd]
  rfl

/-- C9: whenever `run_simulation` on `"double-slit"` succeeds, the result
carries the simulation id `"double-slit"`, the (impure) identifier and
timestamp, and a payload whose echoed `wavelength`, `slit_separation` and
`observer_mode` fields are exactly the values the interference pattern was
computed from. -/
theorem run_result_echoes_resolved_params (uuid now : String)
    (m : RunSimulationRequest) (r : SimulationResult)
    (h : run_simulation uuid now "double-slit" m = Except.ok r) :
    r.simulation_id = "double-slit" ∧ r.id = uuid ∧ r.computed_at = now ∧
    ∃ w d o, r.data = JsonValue.obj
      [ ("pattern", JsonValue.arr ((calculate_interference_pattern w d o).map JsonValue.num)),
        ("wavelength", JsonValue.num w),
        ("slit_separation", JsonValue.num d),
        ("observer_mode", JsonValue.bool o) ] := by
  rw [run_simulation, if_pos rfl] at h
  injection h with h
  subst h
  exact ⟨rfl, rfl, rfl, _, _, _, rfl⟩

/-- Witness for C9 at the concrete input `uuid = "u"`, `now = "t"`, empty
parameter map. -/
theorem run_result_echoes_resolved_params_witness :
    ∃ r, run_simulation "u" "t" "double-slit" ⟨[]⟩ = Except.ok r ∧
      (r.simulation_id = "double-slit" ∧ r.id = "u" ∧ r.computed_at = "t" ∧
       ∃ w d o, r.data = JsonValue.obj
         [ ("pattern", JsonValue.arr ((calculate_interference_pattern w d o).map JsonValue.num)),
           ("wavelength", JsonValue.num w),
           ("slit_separation", JsonValue.num d),
           ("observer_mode", JsonValue.bool o) ]) :=
  ⟨_, rfl, run_result_echoes_resolved_params "u" "t" ⟨[]⟩ _ rfl⟩

/-- C2: for every wavelength `w` (nm), slit separation `d` (mm) and observer
flag, sample `i < 200` of the kernel output equals the spec formula: with
`x = (i − 100) × 0.001` and `theta = atan (x / 1.0)`, wave mode gives
`cos (π (d·1e-3) sin theta / (w·1e-9))²` and observer mode gives
`0.5 (exp (−(theta+0.05)²/0.001) + exp (−(theta−0.05)²/0.001))`. -/
theorem interference_sample_formula (w d : ℝ) (o : Bool) (i : ℕ) (hi : i < 200) :
    (calculate_interference_pattern w d o)[i]? =
      some (if o then
        0.5 * (Real.exp (-(Real.arctan ((((i : ℝ) - 100) * 0.001) / 1.0) + 0.05) ^ 2 / 0.001) +
               Real.exp (-(Real.arctan ((((i : ℝ) - 100) * 0.001) / 1.0) - 0.05) ^ 2 / 0.001))
      else
        Real.cos (Real.pi * (d * 1e-3) *
          Real.sin (Real.arctan ((((i : ℝ) - 100) * 0.001) / 1.0)) / (w * 1e-9)) ^ 2) := by
  unfold calculate_interference_pattern
  rw [List.getElem?_map, List.getElem?_range hi]
  unfold intensity_at
  cases o
  · norm_num
  · norm_num [mul_comm]

/-- Witness for C2 at `w = 550`, `d = 0.1`, `o = false`, `i = 0`. -/
theorem interference_sample_formula_witness :
    (calculate_interference_pattern 550 0.1 false)[0]? =
      some (Real.cos (Real.pi * (0.1 * 1e-3) *
        Real.sin (Real.arctan ((((0 : ℕ) - 100 : ℝ) * 0.001) / 1.0)) / (550 * 1e-9)) ^ 2) := by
  have h := interference_sample_formula 550 0.1 false 0 (by norm_num)
  simpa using h

/-- C3: for every input the kernel output has exactly 200 samples, and every
sample lies in the interval `[0, 1]` (in this real-number model every value
is a fortiori finite). -/
theorem pattern_length_and_bounds (w d : ℝ) (o : Bool) :
    (calculate_interference_pattern w d o).length = 200 ∧
    ∀ v ∈ calculate_interference_pattern w d o, 0 ≤ v ∧ v ≤ 1 := by
  constructor
  · simp [calculate_interference_pattern]
  · intro v hv
    simp only [calculate_interference_pattern, List.mem_map] at hv
    obtain ⟨i, -, rfl⟩ := hv
    unfold intensity_at
    cases o
    · simp only [Bool.false_eq_true, if_false]
      exact ⟨sq_nonneg _, Real.cos_sq_le_one _⟩
    · simp only [if_true]
      constructor
      · positivity
      · set t := Real.arctan ((((i : ℕ) : ℝ) - 200 / 2) * 0.001 / 1.0) with ht
        have h₁ : Real.exp (-(t + 0.05) ^ 2 / 0.001) ≤ 1 := by
          rw [Real.exp_le_one_iff]
          apply div_nonpos_of_nonpos_of_nonneg
          · simpa using sq_nonneg (t + 0.05)
          · norm_num
        have h₂ : Real.exp (-(t - 0.05) ^ 2 / 0.001) ≤ 1 := by
          rw [Real.exp_le_one_iff]
          apply div_nonpos_of_nonpos_of_nonneg
          · simpa using sq_nonneg (t - 0.05)
          · norm_num
        nlinarith [h₁, h₂]

/-- Witness for C3 at `w = 550`, `d = 0.1`, `o = true`, exhibiting the
member `intensity_at 550 0.1 true 0` of the output list. -/
theorem pattern_length_and_bounds_witness :
    (calculate_interference_pattern 550 0.1 true).length = 200 ∧
    (0 ≤ intensity_at 550 0.1 true 0 ∧ intensity_at 550 0.1 true 0 ≤ 1) :=
  ⟨(pattern_length_and_bounds 550 0.1 true).1,
   (pattern_length_and_bounds 550 0.1 true).2 _
     (List.mem_map_of_mem _ (by decide : (0 : ℕ) ∈ List.range 200))⟩

/-- C6: at the center sample (index 100) the wave-mode kernel always yields
exactly 1 (theta is 0, so the phase is 0 and cos² is 1) while the
observer-mode kernel yields strictly less than 1 (the dip between the two
`±0.05` lobes); hence the two output sequences differ at index 100. -/
theorem center_sample_wave_vs_particle (w d : ℝ) :
    intensity_at w d false 100 = 1 ∧
    intensity_at w d true 100 < 1 ∧
    (calculate_interference_pattern w d true)[100]? ≠
      (calculate_interference_pattern w d false)[100]? := by
  have hx : ((100 : ℕ) : ℝ) - 200 / 2 = 0 := by norm_num
  have hwave : intensity_at w d false 100 = 1 := by
    unfold intensity_at
    simp only [Bool.false_eq_true, if_false, hx]
    norm_num
  have hpart : intensity_at w d true 100 < 1 := by
    unfold intensity_at
    simp only [if_true, hx]
    norm_num
    have h₁ : Real.exp (-(5 / 2 : ℝ)) < 1 := by
      rw [Real.exp_lt_one_iff]
      norm_num
    nlinarith [h₁]
  refine ⟨hwave, hpart, ?_⟩
  unfold calculate_interference_pattern
  rw [List.getElem?_map, List.getElem?_map, List.getElem?_range (by norm_num)]
  simp only [Option.map_some', ne_eq, Option.some.injEq]
  rw [hwave]
  exact ne_of_lt hpart

/-- Cosine is 1-Lipschitz (via the product formula). -/
lemma abs_cos_sub_cos_le (a b : ℝ) : |Real.cos a - Real.cos b| ≤ |a - b| := by
  rw [Real.cos_sub_cos]
  have h1 : |Real.sin ((a + b) / 2)| ≤ 1 := Real.abs_sin_le_one _
  have h2 : |Real.sin ((a - b) / 2)| ≤ |a - b| / 2 := by
    have := Real.abs_sin_le_abs (x := (a - b) / 2)
    rwa [abs_div, abs_two] at this
  calc |(-2) * Real.sin ((a + b) / 2) * Real.sin ((a - b) / 2)|
      = 2 * |Real.sin ((a + b) / 2)| * |Real.sin ((a - b) / 2)| := by
        rw [abs_mul, abs_mul]
        norm_num
    _ ≤ 2 * 1 * (|a - b| / 2) := by
        gcongr
    _ = |a - b| := by ring

/-- Sine is 1-Lipschitz (via the product formula). -/
lemma abs_sin_sub_sin_le (a b : ℝ) : |Real.sin a - Real.sin b| ≤ |a - b| := by
  rw [Real.sin_sub_sin]
  have h1 : |Real.cos ((a + b) / 2)| ≤ 1 := Real.abs_cos_le_one _
  have h2 : |Real.sin ((a - b) / 2)| ≤ |a - b| / 2 := by
    have := Real.abs_sin_le_abs (x := (a - b) / 2)
    rwa [abs_div, abs_two] at this
  calc |2 * Real.sin ((a - b) / 2) * Real.cos ((a + b) / 2)|
      = 2 * |Real.sin ((a - b) / 2)| * |Real.cos ((a + b) / 2)| := by
        rw [abs_mul, abs_mul]
        norm_num
    _ ≤ 2 * (|a - b| / 2) * 1 := by
        gcongr
    _ = |a - b| := by ring

/-- Squared cosine is 1-Lipschitz. -/
lemma abs_cos_sq_sub_cos_sq_le (a b : ℝ) :
    |Real.cos a ^ 2 - Real.cos b ^ 2| ≤ |a - b| := by
  have h : Real.cos a ^ 2 - Real.cos b ^ 2 =
      (Real.cos (2 * a) - Real.cos (2 * b)) / 2 := by
    rw [Real.cos_sq, Real.cos_sq]
    ring
  have h2 : |2 * a - 2 * b| = 2 * |a - b| := by
    rw [show (2 * a - 2 * b : ℝ) = 2 * (a - b) by ring, abs_mul, abs_two]
  have := abs_cos_sub_cos_le (2 * a) (2 * b)
  rw [h, abs_div, abs_two]
  rw [h2] at this
  linarith

/-- Arctangent is 1-Lipschitz (mean value theorem; its derivative is
`1 / (1 + x²) ≤ 1`). -/
lemma abs_arctan_sub_arctan_le (a b : ℝ) :
    |Real.arctan a - Real.arctan b| ≤ |a - b| := by
  have hlip : LipschitzWith 1 Real.arctan := by
    apply lipschitzWith_of_nnnorm_deriv_le Real.differentiable_arctan
    intro x
    rw [← NNReal.coe_le_coe, coe_nnnorm, Real.norm_eq_abs, NNReal.coe_one]
    simp only [Real.deriv_arctan]
    rw [abs_of_pos (by positivity), div_le_one (by positivity)]
    nlinarith [sq_nonneg x]
  have := hlip.dist_le_mul a b
  simpa [Real.dist_eq] using this

/-- The wave-mode sample, rewritten without the `let` bindings of the
source and with the numerals evaluated. -/
lemma intensity_at_false_eq (w d : ℝ) (i : ℕ) :
    intensity_at w d false i =
      Real.cos (Real.pi * (d * 1e-3) *
        Real.sin (Real.arctan (((i : ℝ) - 100) * 0.001)) / (w * 1e-9)) ^ 2 := by
  unfold intensity_at
  norm_num

/-- The wave-mode intensity is an even function of the screen position. -/
lemma wave_formula_even (w d x : ℝ) :
    Real.cos (Real.pi * (d * 1e-3) * Real.sin (Real.arctan (-x)) / (w * 1e-9)) ^ 2 =
    Real.cos (Real.pi * (d * 1e-3) * Real.sin (Real.arctan x) / (w * 1e-9)) ^ 2 := by
  rw [Real.arctan_neg, Real.sin_neg, mul_neg, neg_div, Real.cos_neg]

/-- The wave-mode intensity, as a function of screen position, is Lipschitz
with constant `π d_m / λ_m`. -/
lemma wave_formula_lipschitz (w d : ℝ) (hw : 0 < w) (hd : 0 ≤ d) (u v : ℝ) :
    |Real.cos (Real.pi * (d * 1e-3) * Real.sin (Real.arctan u) / (w * 1e-9)) ^ 2 -
     Real.cos (Real.pi * (d * 1e-3) * Real.sin (Real.arctan v) / (w * 1e-9)) ^ 2| ≤
      Real.pi * (d * 1e-3) / (w * 1e-9) * |u - v| := by
  have hc : (0 : ℝ) ≤ Real.pi * (d * 1e-3) / (w * 1e-9) := by positivity
  have hsplit : Real.pi * (d * 1e-3) * Real.sin (Real.arctan u) / (w * 1e-9) -
      Real.pi * (d * 1e-3) * Real.sin (Real.arctan v) / (w * 1e-9) =
      (Real.pi * (d * 1e-3) / (w * 1e-9)) *
        (Real.sin (Real.arctan u) - Real.sin (Real.arctan v)) := by
    ring
  calc |Real.cos (Real.pi * (d * 1e-3) * Real.sin (Real.arctan u) / (w * 1e-9)) ^ 2 -
        Real.cos (Real.pi * (d * 1e-3) * Real.sin (Real.arctan v) / (w * 1e-9)) ^ 2|
      ≤ |Real.pi * (d * 1e-3) * Real.sin (Real.arctan u) / (w * 1e-9) -
         Real.pi * (d * 1e-3) * Real.sin (Real.arctan v) / (w * 1e-9)| :=
        abs_cos_sq_sub_cos_sq_le _ _
    _ = (Real.pi * (d * 1e-3) / (w * 1e-9)) *
          |Real.sin (Real.arctan u) - Real.sin (Real.arctan v)| := by
        rw [hsplit, abs_mul, abs_of_nonneg hc]
    _ ≤ (Real.pi * (d * 1e-3) / (w * 1e-9)) * |Real.arctan u - Real.arctan v| := by
        exact mul_le_mul_of_nonneg_left (abs_sin_sub_sin_le _ _) hc
    _ ≤ (Real.pi * (d * 1e-3) / (w * 1e-9)) * |u - v| :=
        mul_le_mul_of_nonneg_left (abs_arctan_sub_arctan_le u v) hc

/-- C7: for `observer_mode = false` the 200-sample output is approximately
symmetric about its midpoint.  Sample `i` and sample `199 − i` sit at
screen positions `x` and `−x − 0.001`, so they agree up to the explicit
bound `π d_m / λ_m × 0.001` (the kernel's phase sensitivity times the
half-step grid offset); the underlying intensity is exactly mirror
symmetric, as samples `i` and `200 − i` are exactly equal. -/
theorem wave_pattern_approx_symmetric (w d : ℝ) (hw : 0 < w) (hd : 0 ≤ d)
    (i : ℕ) (hi : i < 200) :
    |intensity_at w d false i - intensity_at w d false (199 - i)| ≤
      Real.pi * (d * 1e-3) / (w * 1e-9) * 0.001 ∧
    (1 ≤ i → intensity_at w d false i = intensity_at w d false (200 - i)) := by
  constructor
  · have hile : i ≤ 199 := by omega
    have hcast : ((199 - i : ℕ) : ℝ) = 199 - (i : ℝ) := by
      rw [Nat.cast_sub hile]
      norm_num
    rw [intensity_at_false_eq, intensity_at_false_eq]
    have harg : ((((199 - i : ℕ) : ℝ) - 100) * 0.001) =
        -((((i : ℝ) - 100) * 0.001) + 0.001) := by
      rw [hcast]
      ring
    rw [harg, wave_formula_even]
    have hlip := wave_formula_lipschitz w d hw hd
      (((i : ℝ) - 100) * 0.001) ((((i : ℝ) - 100) * 0.001) + 0.001)
    have habs : |(((i : ℝ) - 100) * 0.001) - ((((i : ℝ) - 100) * 0.001) + 0.001)| =
        0.001 := by
      rw [show ((((i : ℝ) - 100) * 0.001) - ((((i : ℝ) - 100) * 0.001) + 0.001)) =
        -0.001 by ring, abs_neg, abs_of_nonneg (by norm_num)]
    rw [habs] at hlip
    exact hlip
  · intro h1
    have hile : i ≤ 200 := by omega
    have hcast : ((200 - i : ℕ) : ℝ) = 200 - (i : ℝ) := by
      rw [Nat.cast_sub hile]
      norm_num
    rw [intensity_at_false_eq, intensity_at_false_eq]
    have harg : ((((200 - i : ℕ) : ℝ) - 100) * 0.001) =
        -((((i : ℝ) - 100) * 0.001)) := by
      rw [hcast]
      ring
    rw [harg, wave_formula_even]

/-- Witness for C7 at `w = 550`, `d = 0.1`, `i = 100`. -/
theorem wave_pattern_approx_symmetric_witness :
    |intensity_at 550 0.1 false 100 - intensity_at 550 0.1 false 99| ≤
      Real.pi * (0.1 * 1e-3) / (550 * 1e-9) * 0.001 ∧
    intensity_at 550 0.1 false 100 = intensity_at 550 0.1 false 100 := by
  have h := wave_pattern_approx_symmetric 550 0.1 (by norm_num) (by norm_num)
    100 (by norm_num)
  exact ⟨h.1, h.2 (by norm_num)⟩

/-- Witness for the amended C1 at the concrete catalog id
`"hydrogen-atom"`. -/
theorem lookup_and_run_notfound_iff_witness :
    ((∃ dd, get_simulation "hydrogen-atom" = Except.ok dd) ↔
      "hydrogen-atom" = "double-slit") ∧
    (get_simulation "hydrogen-atom" = Except.error StatusCode.NOT_FOUND ∧
     run_simulation "u" "t" "hydrogen-atom" ⟨[]⟩ =
        Except.error StatusCode.NOT_FOUND) := by
  have h := lookup_and_run_notfound_iff "u" "t" "hydrogen-atom" ⟨[]⟩
  exact ⟨h.1, h.2.2 (by decide)⟩

/-- Witness for C6 at `w = 550`, `d = 0.1`. -/
theorem center_sample_wave_vs_particle_witness :
    intensity_at 550 0.1 false 100 = 1 ∧
    intensity_at 550 0.1 true 100 < 1 ∧
    (calculate_interference_pattern 550 0.1 true)[100]? ≠
      (calculate_interference_pattern 550 0.1 false)[100]? :=
  center_sample_wave_vs_particle 550 0.1
